import Mathlib

/-!
Shallow embedding of the postnl-rs authentication subsystem.

The repository holds two historical revisions of the token-handling core:
src/src/auth.rs (browser-emulating OAuth2/PKCE flow, chrono time, i64 TTL)
and src/src/lib.rs (mobile-API flow with a mutex token cache, std Instant,
u64 TTL).  Both are embedded below: namespace Auth follows auth.rs,
namespace Lib follows lib.rs.  Network effects are made explicit: every
function that inspects an HTTP response takes the response (status, body,
redirect target) as an argument, and functions that issue requests also
return the list of requests they performed.  Machine integers are modelled
as Nat/Int.  Arithmetic the program cannot complete — the u64/i64 TTL
subtraction overflow (a debug abort, wrapping in release into a duration no
time type can hold), the std `Instant + Duration` overflow, and the chrono
`Duration::seconds` and `DateTime + Duration` range aborts — is modelled as
an explicit abort outcome, `none`, distinct from every `Err` value, since a
panic in this code aborts the process rather than returning an error.
Instants and DateTimes are points on an integer timeline, in seconds,
passed explicitly as a `now` parameter; an `Instant` is a nonnegative
reading whose representable range is modelled as the i64 seconds of the
underlying platform timespec.
-/

namespace PostNL

/-- Union of the error variants of the library.  The revision of lib.rs that
declares the `Error` enum used by auth.rs is not part of this snapshot;
the constructors below are collected from the variants constructed in
src/src/auth.rs (`NoRequestValidationToken`, `NoStaticUrl`,
`VerificationFailure`, `Blocked`, `AuthorizationFailure`, `FailedToken`)
and from the enum declared in src/src/lib.rs (`ClientInitialization`,
`NetworkError`, `JSONError`, `Authentication`).  In auth.rs the
`AuthorizationFailure` payload is a static string and the
`VerificationFailure` payload an owned string; both are `String` here. -/
inductive Error where
  | ClientInitialization
  | NetworkError
  | JSONError
  | Authentication
  | NoRequestValidationToken
  | NoStaticUrl
  | VerificationFailure (reason : String)
  | Blocked
  | AuthorizationFailure (reason : String)
  | FailedToken (reason : String)
deriving DecidableEq

/-- True exactly on the `AuthorizationFailure` variant. -/
def Error.isAuthorizationFailure : Error → Bool
  | .AuthorizationFailure _ => true
  | _ => false

/-- JSON values.  Numbers are modelled as integers: every number appearing
in the token-endpoint bodies this embedding decodes is an integral TTL, and
a non-integral number fails the integer field decoders below just as a
float fails the serde i64/u64 field decode. -/
inductive Json where
  | null
  | bool (b : Bool)
  | num (n : Int)
  | str (s : String)
  | arr (xs : List Json)
  | obj (fields : List (String × Json))

/-- serde field access on a JSON object: first occurrence of the key. -/
def getField (fields : List (String × Json)) (k : String) : Option Json :=
  (fields.find? (fun p => p.1 = k)).map (fun p => p.2)

/-- A JSON string, as required for a serde `String` field. -/
def Json.asStr : Json → Option String
  | .str s => some s
  | _ => none

/-- A JSON number in i64 range, as required for a serde `i64` field. -/
def Json.asI64 : Json → Option Int
  | .num n => if -(2 ^ 63) ≤ n ∧ n < 2 ^ 63 then some n else none
  | _ => none

/-- A JSON number in u64 range, as required for a serde `u64` field. -/
def Json.asU64 : Json → Option Nat
  | .num n => if 0 ≤ n ∧ n < 2 ^ 64 then some n.toNat else none
  | _ => none

namespace Auth

/-- src/src/auth.rs `ErrorResponse`: the error shape of the token endpoint. -/
structure ErrorResponse where
  error : String
deriving DecidableEq

/-- src/src/auth.rs `RawToken`: the success shape of the token endpoint.
`expires_in` is an `i64`. -/
structure RawToken where
  access_token : String
  id_token : String
  expires_in : Int
deriving DecidableEq

/-- serde decode of `ErrorResponse`: an object with a string field `error`;
unknown fields are ignored (no deny-unknown-fields attribute in the source). -/
def decodeErrorResponse (j : Json) : Option ErrorResponse :=
  match j with
  | .obj fields => ((getField fields "error").bind Json.asStr).map ErrorResponse.mk
  | _ => none

/-- serde decode of `RawToken`: an object with string fields `access_token`
and `id_token` and an i64 field `expires_in`; unknown fields are ignored. -/
def decodeRawToken (j : Json) : Option RawToken :=
  match j with
  | .obj fields =>
    match (getField fields "access_token").bind Json.asStr,
          (getField fields "id_token").bind Json.asStr,
          (getField fields "expires_in").bind Json.asI64 with
    | some a, some i, some e => some ⟨a, i, e⟩
    | _, _, _ => none
  | _ => none

/-- src/src/auth.rs `RawTokenResponse`, an untagged serde enum whose
variants are declared in the order `Error`, then `Ok`. -/
inductive RawTokenResponse where
  | Error (e : ErrorResponse)
  | Ok (t : RawToken)
deriving DecidableEq

/-- serde untagged decode of `RawTokenResponse`: variants are tried in
declaration order, so the error shape is tried first and the success shape
is the fallback. -/
def decodeRawTokenResponse (j : Json) : Option RawTokenResponse :=
  match decodeErrorResponse j with
  | some e => some (.Error e)
  | none => (decodeRawToken j).map .Ok

/-- The decode order written in the spec (success shape first, error shape
as the fallback), for comparison with `decodeRawTokenResponse`. -/
def decodeTokenResponseSpec (j : Json) : Option RawTokenResponse :=
  match decodeRawToken j with
  | some t => some (.Ok t)
  | none => (decodeErrorResponse j).map .Error

/-- The largest whole-second magnitude a chrono `Duration` can hold:
`Duration::seconds` aborts beyond plus or minus i64 MAX milliseconds. -/
def durationSecsMax : Int := 9223372036854775

/-- The chrono datetime upper bound, 262143-12-31T23:59:59 UTC, as epoch
seconds: `DateTime + Duration` aborts past it. -/
def dateTimeMaxSecs : Int := 8210298412799

/-- The chrono datetime lower bound, -262144-01-01T00:00:00 UTC, as epoch
seconds: `DateTime + Duration` aborts below it. -/
def dateTimeMinSecs : Int := -8334632937600

/-- src/src/auth.rs `Token` (the `AccessToken` and `RefreshToken` newtype
wrappers are flattened to their underlying strings; `expires` is the
`DateTime<Utc>` as a point on the integer timeline, in seconds). -/
structure Token where
  access : String
  id_token : String
  expires : Int
deriving DecidableEq

/-- src/src/auth.rs `Token::need_refresh`: `self.expires < Utc::now()`. -/
def Token.need_refresh (t : Token) (now : Int) : Bool :=
  t.expires < now

/-- src/src/auth.rs `TryFrom<RawTokenResponse> for Token`: the error shape
becomes a `FailedToken` carrying the reported error string; a success shape
becomes a token expiring at `Utc::now() + Duration::seconds(expires_in -
15)`.  `none` is the abort outcome of that arithmetic: when `expires_in -
15` leaves i64 range, a debug build aborts at the subtraction and a release
build wraps it to a magnitude past every chrono bound; `Duration::seconds`
aborts beyond `durationSecsMax`; and the `DateTime` addition aborts when
the result leaves the chrono datetime range.  Only when none of these
aborts fire is a token constructed. -/
def Token.tryFrom (raw : RawTokenResponse) (now : Int) :
    Option (Except Error Token) :=
  match raw with
  | .Ok token =>
    if -durationSecsMax ≤ token.expires_in - 15 ∧
       token.expires_in - 15 ≤ durationSecsMax ∧
       dateTimeMinSecs ≤ now + (token.expires_in - 15) ∧
       now + (token.expires_in - 15) ≤ dateTimeMaxSecs then
      some (.ok { access := token.access_token, id_token := token.id_token,
                  expires := now + (token.expires_in - 15) })
    else none
  | .Error err => some (.error (.FailedToken err.error))

/-- A redirect target: the decoded query pairs of a `Location` URL, in
order.  `Url::query_pairs` yields percent-decoded key/value pairs; the
embedding works at that decoded level. -/
structure Url where
  query_pairs : List (String × String)

/-- Lookup in a `HashMap` collected from an iterator of pairs: for a
duplicated key the later insertion wins, so this is last-occurrence lookup.
Models `location_header.query_pairs().collect::<HashMap<_, _>>()`. -/
def hashMapGet (pairs : List (String × String)) (k : String) : Option String :=
  (pairs.reverse.find? (fun p => p.1 = k)).map (fun p => p.2)

/-- src/src/auth.rs `AuthorizationCode`. -/
structure AuthorizationCode where
  code : String
  code_verifier : String
deriving DecidableEq

/-- The redirect-inspection part of src/src/auth.rs
`AuthHandler::<LoggedIn>::do_authorization`: `redirect` is the parsed
`Location` header of the authorize response (`none` when the header is
missing, not a string, or not a parseable URL).  No redirect yields
`AuthorizationFailure`; an `error` query parameter yields
`VerificationFailure` carrying its value; otherwise a `code` parameter
yields the authorization code paired with the PKCE verifier, and its
absence yields `AuthorizationFailure`. -/
def do_authorization (redirect : Option Url) (code_verifier : String) :
    Except Error AuthorizationCode :=
  match redirect with
  | none => .error (.AuthorizationFailure "No or invalid redirect url")
  | some url =>
    match hashMapGet url.query_pairs "error" with
    | some err => .error (.VerificationFailure err)
    | none =>
      match hashMapGet url.query_pairs "code" with
      | some code => .ok { code := code, code_verifier := code_verifier }
      | none => .error (.AuthorizationFailure "No code provided")

/-- Rust `bool::from_str`: accepts exactly the strings true and false. -/
def parseBool (s : String) : Option Bool :=
  if s = "true" then some true else if s = "false" then some false else none

/-- The redirect-inspection part of src/src/auth.rs
`AuthHandler::<New>::do_login`: if the login response carries a parseable
`Location` URL whose first `botdetected` query pair parses (via
`bool::from_str`, defaulting to `false` on a parse error) to `true`, the
step fails with `Blocked`; in every other case it succeeds. -/
def do_login (redirect : Option Url) : Except Error Unit :=
  match redirect with
  | some url =>
    if (url.query_pairs.find? (fun p => p.1 = "botdetected")).map
        (fun p => (parseBool p.2).getD false) = some true
    then .error .Blocked
    else .ok ()
  | none => .ok ()

/-- The literal head of the verification-token pattern
`__RequestVerificationToken.* value=("[^"]*)` (26 characters). -/
def litToken : List Char := "__RequestVerificationToken".toList

/-- The literal middle of the verification-token pattern: a space,
`value=`, and an opening double quote (8 characters). -/
def litValue : List Char := " value=".toList ++ ['"']

/-- The greedy `.* value="([^"]*)` tail of the verification-token pattern,
applied to the text following the literal head: `.*` cannot cross a
newline, the greedy semantics of the regex crate for `.*` makes the match use the last
possible `litValue` occurrence on that line, and the capture is the
longest run of non-quote characters after it. -/
def findValueCapture (rest : List Char) : Option (List Char) :=
  let lineLen := (rest.takeWhile (fun c => c ≠ '\n')).length
  ((List.range (lineLen + 1)).reverse.find?
      (fun j => litValue.isPrefixOf (rest.drop j))).map
    (fun j => (rest.drop (j + 8)).takeWhile (fun c => c ≠ '"'))

/-- Leftmost match of the verification-token regex
`__RequestVerificationToken.* value=("[^"]*)` over the HTML body, returning
capture group 1: scan for the leftmost occurrence of the literal head from
which the rest of the pattern also matches. -/
def scanA : List Char → Option (List Char)
  | [] => none
  | c :: t =>
    if litToken.isPrefixOf (c :: t) then
      match findValueCapture ((c :: t).drop 26) with
      | some cap => some cap
      | none => scanA t
    else scanA t

/-- Lowercase-alphanumeric character class `[a-z0-9]` of the static-path
pattern. -/
def isLowerAlnum (c : Char) : Bool :=
  (97 ≤ c.toNat && c.toNat ≤ 122) || (48 ≤ c.toNat && c.toNat ≤ 57)

/-- The literal head `src="/static/` of the static-path pattern
(13 characters). -/
def litStatic : List Char := "src=".toList ++ ['"'] ++ "/static/".toList

/-- Leftmost match of the static-path regex `src=("/static/[a-z0-9]+")`
over the HTML body, returning capture group 1.  At a literal-head match the
greedy `[a-z0-9]+` takes the maximal run, which must be nonempty and be
followed by a closing quote (shrinking the run only exposes another
alphanumeric character, so backtracking cannot succeed where the greedy
run does not). -/
def scanB : List Char → Option (List Char)
  | [] => none
  | c :: t =>
    if litStatic.isPrefixOf (c :: t) then
      let rest := (c :: t).drop 13
      let run := rest.takeWhile isLowerAlnum
      if run.length ≠ 0 ∧ (rest.drop run.length).take 1 = ['"'] then
        some ("/static/".toList ++ run)
      else scanB t
    else scanB t

/-- src/src/auth.rs `VerificationInfo`. -/
structure VerificationInfo where
  url : String
  token : String
deriving DecidableEq

/-- The scraping part of src/src/auth.rs
`AuthHandler::<New>::get_request_verification_info`, applied to the fetched
login-page body: the verification-token pattern is tried first and its
failure reported as `NoRequestValidationToken`; only then is the
static-path pattern tried, its failure reported as `NoStaticUrl`. -/
def get_request_verification_info (body : String) :
    Except Error VerificationInfo :=
  match scanA body.toList with
  | none => .error .NoRequestValidationToken
  | some tok =>
    match scanB body.toList with
    | none => .error .NoStaticUrl
    | some path => .ok { url := String.mk path, token := String.mk tok }

/-- The request behaviour of src/src/auth.rs
`AuthHandler::<New>::verify_login` after the initial login-page GET: the
boolean records whether the sensor-data POST to the scraped static path is
sent.  A scrape failure propagates before any such request is made. -/
def verify_login_posts (body : String) :
    Except Error VerificationInfo × Bool :=
  match get_request_verification_info body with
  | .error e => (.error e, false)
  | .ok vi => (.ok vi, true)

/-- Rust `std::char::from_digit(n, 16)` for n < 16: digits, then lowercase
letters. -/
def from_digit (n : Nat) : Char :=
  if n < 10 then Char.ofNat (48 + n) else Char.ofNat (87 + n)

/-- src/src/auth.rs `hex_random`: folds `length` draws of
`rng.gen_range(0, 15)` — a value in the half-open range 0..15 — through
`char::from_digit(_, 16)`.  The random source is modelled as a stream of
naturals reduced modulo 15, which realises exactly the possible outputs of
`gen_range(0, 15)`. -/
def hex_random (length : Nat) (rng : Nat → Nat) : String :=
  String.mk ((List.range length).map (fun i => from_digit (rng i % 15)))

/-- Right rotation of a 32-bit word. -/
def rotr32 (n x : Nat) : Nat :=
  ((x >>> n) ||| (x <<< (32 - n))) % 2 ^ 32

/-- SHA-256 choice function (not-x is xor with the 32-bit mask). -/
def shaCh (x y z : Nat) : Nat :=
  (x &&& y) ^^^ ((x ^^^ (2 ^ 32 - 1)) &&& z)

/-- SHA-256 majority function. -/
def shaMaj (x y z : Nat) : Nat :=
  (x &&& y) ^^^ (x &&& z) ^^^ (y &&& z)

/-- SHA-256 big sigma 0. -/
def bigSig0 (x : Nat) : Nat := rotr32 2 x ^^^ rotr32 13 x ^^^ rotr32 22 x

/-- SHA-256 big sigma 1. -/
def bigSig1 (x : Nat) : Nat := rotr32 6 x ^^^ rotr32 11 x ^^^ rotr32 25 x

/-- SHA-256 small sigma 0. -/
def smallSig0 (x : Nat) : Nat := rotr32 7 x ^^^ rotr32 18 x ^^^ (x >>> 3)

/-- SHA-256 small sigma 1. -/
def smallSig1 (x : Nat) : Nat := rotr32 17 x ^^^ rotr32 19 x ^^^ (x >>> 10)

/-- The 64 SHA-256 round constants (decimal). -/
def shaK : List Nat :=
  [1116352408, 1899447441, 3049323471, 3921009573, 961987163,
   1508970993, 2453635748, 2870763221, 3624381080, 310598401,
   607225278, 1426881987, 1925078388, 2162078206, 2614888103,
   3248222580, 3835390401, 4022224774, 264347078, 604807628,
   770255983, 1249150122, 1555081692, 1996064986, 2554220882,
   2821834349, 2952996808, 3210313671, 3336571891, 3584528711,
   113926993, 338241895, 666307205, 773529912, 1294757372,
   1396182291, 1695183700, 1986661051, 2177026350, 2456956037,
   2730485921, 2820302411, 3259730800, 3345764771, 3516065817,
   3600352804, 4094571909, 275423344, 430227734, 506948616,
   659060556, 883997877, 958139571, 1322822218, 1537002063,
   1747873779, 1955562222, 2024104815, 2227730452, 2361852424,
   2428436474, 2756734187, 3204031479, 3329325298]

/-- The SHA-256 initial hash state (decimal). -/
def shaH0 : List Nat :=
  [1779033703, 3144134277, 1013904242, 2773480762, 1359893119,
   2600822924, 528734635, 1541459225]

/-- Big-endian bytes of `n`, `k` bytes wide. -/
def beBytes (k n : Nat) : List Nat :=
  (List.range k).map (fun i => (n >>> (8 * (k - 1 - i))) % 256)

/-- SHA-256 padding: 0x80, zeros to 56 mod 64, then the 64-bit big-endian
bit length. -/
def padMessage (msg : List Nat) : List Nat :=
  let len := msg.length
  let zeros := (64 - (len + 9) % 64) % 64
  msg ++ [0x80] ++ List.replicate zeros 0 ++ beBytes 8 (len * 8)

/-- Big-endian 32-bit words of a list of bytes. -/
def toWords : List Nat → List Nat
  | b0 :: b1 :: b2 :: b3 :: rest =>
    (((b0 * 256 + b1) * 256 + b2) * 256 + b3) :: toWords rest
  | _ => []

/-- Fuel-indexed 64-byte splitter: each step consumes a nonempty list, so
fuel equal to the length of the list always suffices. -/
def chunks64Fuel : Nat → List Nat → List (List Nat)
  | 0, _ => []
  | _, [] => []
  | fuel + 1, c :: t => ((c :: t).take 64) :: chunks64Fuel fuel ((c :: t).drop 64)

/-- The padded byte stream split into 64-byte blocks. -/
def chunks64 (l : List Nat) : List (List Nat) :=
  chunks64Fuel l.length l

/-- Extend a 16-word block schedule by `t` further message-schedule words. -/
def extendW (w : List Nat) : Nat → List Nat
  | 0 => w
  | n + 1 =>
    let w2 := extendW w n
    let i := w2.length
    w2 ++ [(smallSig1 (w2.getD (i - 2) 0) + w2.getD (i - 7) 0 +
            smallSig0 (w2.getD (i - 15) 0) + w2.getD (i - 16) 0) % 2 ^ 32]

/-- One SHA-256 compression of a 64-byte block into the running state. -/
def shaCompress (h : List Nat) (block : List Nat) : List Nat :=
  let w := extendW (toWords block) 48
  let init := (h.getD 0 0, h.getD 1 0, h.getD 2 0, h.getD 3 0,
               h.getD 4 0, h.getD 5 0, h.getD 6 0, h.getD 7 0)
  let fin := (List.zip shaK w).foldl
    (fun st kw =>
      let (a, b, c, d, e, f, g, hh) := st
      let (k, wt) := kw
      let t1 := (hh + bigSig1 e + shaCh e f g + k + wt) % 2 ^ 32
      let t2 := (bigSig0 a + shaMaj a b c) % 2 ^ 32
      ((t1 + t2) % 2 ^ 32, a, b, c, (d + t1) % 2 ^ 32, e, f, g))
    init
  match fin with
  | (a, b, c, d, e, f, g, hh) =>
    [(h.getD 0 0 + a) % 2 ^ 32, (h.getD 1 0 + b) % 2 ^ 32,
     (h.getD 2 0 + c) % 2 ^ 32, (h.getD 3 0 + d) % 2 ^ 32,
     (h.getD 4 0 + e) % 2 ^ 32, (h.getD 5 0 + f) % 2 ^ 32,
     (h.getD 6 0 + g) % 2 ^ 32, (h.getD 7 0 + hh) % 2 ^ 32]

/-- SHA-256 of a byte list, as 32 output bytes. -/
def sha256 (msg : List Nat) : List Nat :=
  ((chunks64 (padMessage msg)).foldl shaCompress shaH0).map (beBytes 4)
    |>.flatten

/-- The standard base64 alphabet used by `base64::encode`. -/
def b64alphabet : List Char :=
  "ABCDEFGHIJKLMNOPQRSTUVWXYZabcdefghijklmnopqrstuvwxyz0123456789+/".toList

/-- Standard base64 with padding, as produced by `base64::encode`. -/
def b64encode : List Nat → List Char
  | b0 :: b1 :: b2 :: rest =>
    let n := b0 * 65536 + b1 * 256 + b2
    b64alphabet.getD (n / 262144 % 64) 'A' ::
      b64alphabet.getD (n / 4096 % 64) 'A' ::
      b64alphabet.getD (n / 64 % 64) 'A' ::
      b64alphabet.getD (n % 64) 'A' :: b64encode rest
  | [b0, b1] =>
    let n := b0 * 65536 + b1 * 256
    [b64alphabet.getD (n / 262144 % 64) 'A',
     b64alphabet.getD (n / 4096 % 64) 'A',
     b64alphabet.getD (n / 64 % 64) 'A', '=']
  | [b0] =>
    let n := b0 * 65536
    [b64alphabet.getD (n / 262144 % 64) 'A',
     b64alphabet.getD (n / 4096 % 64) 'A', '=', '=']
  | [] => []

/-- The base64url alphabet. -/
def b64urlAlphabet : List Char :=
  "ABCDEFGHIJKLMNOPQRSTUVWXYZabcdefghijklmnopqrstuvwxyz0123456789-_".toList

/-- base64url without padding, the encoding the spec names for the PKCE
challenge: the url-safe alphabet and no `=` padding characters. -/
def base64urlNoPad : List Nat → List Char
  | b0 :: b1 :: b2 :: rest =>
    let n := b0 * 65536 + b1 * 256 + b2
    b64urlAlphabet.getD (n / 262144 % 64) 'A' ::
      b64urlAlphabet.getD (n / 4096 % 64) 'A' ::
      b64urlAlphabet.getD (n / 64 % 64) 'A' ::
      b64urlAlphabet.getD (n % 64) 'A' :: base64urlNoPad rest
  | [b0, b1] =>
    let n := b0 * 65536 + b1 * 256
    [b64urlAlphabet.getD (n / 262144 % 64) 'A',
     b64urlAlphabet.getD (n / 4096 % 64) 'A',
     b64urlAlphabet.getD (n / 64 % 64) 'A']
  | [b0] =>
    let n := b0 * 65536
    [b64urlAlphabet.getD (n / 262144 % 64) 'A',
     b64urlAlphabet.getD (n / 4096 % 64) 'A']
  | [] => []

/-- Replace every occurrence of one character, as `str::replace` with a
single-character pattern and replacement. -/
def replaceChar (c d : Char) (l : List Char) : List Char :=
  l.map (fun x => if x = c then d else x)

/-- The bytes of a string (`str::as_bytes`): UTF-8, which for the ASCII
strings handled here coincides with the code points. -/
def strBytes (s : String) : List Nat :=
  s.toList.map Char.toNat

/-- The challenge derivation of src/src/auth.rs
`AuthorizationParams::new`: standard base64 of the SHA-256 digest of the
verifier, then `replace` of a plus with a dash, then `replace` of a
BACKSLASH (not a forward slash) with an underscore, then removal of the
padding `=`.  The backslash never occurs in base64 output, so that replace
is a no-op and any `/` of the base64 encoding survives. -/
def code_challenge (verifier : String) : String :=
  String.mk
    (((replaceChar '\\' '_'
        (replaceChar '+' '-' (b64encode (sha256 (strBytes verifier))))).filter
      (fun c => c ≠ '=')))

end Auth

namespace Lib

/-- src/src/lib.rs `RawToken`: the decoded body of the mobile token
endpoint.  `expires_in` is a `u64`, kept as a Nat below `2 ^ 64`. -/
structure RawToken where
  access_token : String
  refresh_token : String
  expires_in : Nat
deriving DecidableEq

/-- serde decode of the lib.rs `RawToken` (derived `Deserialize`, applied
through the `serde(from = "RawToken")` attribute on `Token`): an object
with string fields `access_token` and `refresh_token` and a u64 field
`expires_in`; unknown fields are ignored. -/
def decodeRawToken (j : Json) : Option RawToken :=
  match j with
  | .obj fields =>
    match (getField fields "access_token").bind Json.asStr,
          (getField fields "refresh_token").bind Json.asStr,
          (getField fields "expires_in").bind Json.asU64 with
    | some a, some r, some e => some ⟨a, r, e⟩
    | _, _, _ => none
  | _ => none

/-- src/src/lib.rs `Token` (newtype wrappers flattened; `expires` is the
`Instant` as a point on the integer timeline, in seconds). -/
structure Token where
  access : String
  refresh : String
  expires : Int
deriving DecidableEq

/-- src/src/lib.rs `Token::need_refresh`: `self.expires < Instant::now()`. -/
def Token.need_refresh (t : Token) (now : Int) : Bool :=
  t.expires < now

/-- src/src/lib.rs `From<RawToken> for Token`: the expiry is
`Instant::now() + Duration::from_secs(raw.expires_in - 15)`.  `none` is the
abort outcome of that arithmetic: for `expires_in < 15` a debug build
aborts at the u64 subtraction, and a release build wraps it to at least
`2 ^ 64 - 15` seconds, which overflows the i64 seconds behind any
(nonnegative) `Instant` at the addition — so no token is ever constructed;
and for larger TTLs the `Instant` addition aborts whenever the sum cannot
be represented in those i64 seconds. -/
def Token.fromRaw (raw : RawToken) (now : Int) : Option Token :=
  if raw.expires_in < 15 then none
  else if now + ((raw.expires_in : Int) - 15) < 2 ^ 63 then
    some { access := raw.access_token, refresh := raw.refresh_token,
           expires := now + ((raw.expires_in : Int) - 15) }
  else none

/-- The outcome of one HTTP exchange: a transport failure, or a response
with a status code and a JSON body (an unparseable body is any `Json`
value the relevant decoder rejects). -/
inductive HttpOutcome where
  | transportError
  | response (status : Nat) (body : Json)

/-- The network environment of one `authenticate` pass: what the token
endpoint answers to the refresh POST and to the password-grant POST. -/
structure World where
  refreshResp : HttpOutcome
  newTokenResp : HttpOutcome

/-- The requests the subsystem can issue against the token endpoint. -/
inductive Req where
  | refresh
  | mint
deriving DecidableEq

/-- src/src/lib.rs `PostNL::new_token`: POST the password grant; a
transport error propagates; a 4xx status is `Authentication`; otherwise
the body is decoded (`response.json()?`), a decode failure being a JSON
error.  The `From<RawToken>` conversion runs inside the decode, so its
abort (`Token.fromRaw` returning `none`) aborts the whole call: the outer
`none` here is the process abort, distinct from every returned error. -/
def new_token (w : World) (now : Int) : Option (Except Error Token) :=
  match w.newTokenResp with
  | .transportError => some (.error .NetworkError)
  | .response status body =>
    if 400 ≤ status ∧ status < 500 then some (.error .Authentication)
    else
      match decodeRawToken body with
      | some raw => (Token.fromRaw raw now).map .ok
      | none => some (.error .JSONError)

/-- src/src/lib.rs `PostNL::refresh_token`, with the list of token-endpoint
requests it issues: a fresh token is returned as-is with no request; a
stale token triggers the lightweight refresh POST, whose transport error
propagates; a 2xx response is decoded (`response.json()?`, a decode
failure being a surfaced JSON error); any non-2xx status discards the
refresh outcome and falls back to `new_token`.  As in `new_token`, the
`none` result is the abort of the `From<RawToken>` conversion; the request
trace lists the requests already issued when the call returns or aborts. -/
def refresh_token (t : Token) (w : World) (now : Int) :
    Option (Except Error Token) × List Req :=
  if t.need_refresh now then
    match w.refreshResp with
    | .transportError => (some (.error .NetworkError), [.refresh])
    | .response status body =>
      if 200 ≤ status ∧ status < 300 then
        (match decodeRawToken body with
         | some raw => (Token.fromRaw raw now).map .ok
         | none => some (.error .JSONError),
         [.refresh])
      else
        (new_token w now, [.refresh, .mint])
  else (some (.ok t), [])

/-- src/src/lib.rs `PostNL::authenticate`: the cached token is taken out of
the mutex slot (leaving it empty), the replacement is computed via
`refresh_token` or `new_token`, and only on success is the slot
repopulated; the `?` on the computation returns with the slot still empty.
Returns the access-token result (`none` when the computation aborts the
process), the final contents of the slot — also emptied, and never
repopulated, on an abort — and the requests issued. -/
def authenticate (slot : Option Token) (w : World) (now : Int) :
    Option (Except Error String) × Option Token × List Req :=
  match slot with
  | some old =>
    match refresh_token old w now with
    | (some (.ok t), reqs) => (some (.ok t.access), some t, reqs)
    | (some (.error e), reqs) => (some (.error e), none, reqs)
    | (none, reqs) => (none, none, reqs)
  | none =>
    match new_token w now with
    | some (.ok t) => (some (.ok t.access), some t, [.mint])
    | some (.error e) => (some (.error e), none, [.mint])
    | none => (none, none, [.mint])

end Lib

/-! ## Claims -/

/-- A concrete 64-character code verifier (drawn from the 15-symbol
alphabet `hex_random` actually produces) whose SHA-256 digest has a base64
encoding contains forward slashes. -/
def c1Verifier : String :=
  "0123456789abcde0123456789abcde0123456789abcde0123456789abcde0123"

set_option maxRecDepth 100000 in
/-- C1: the claim says the code challenge equals base64url-no-padding of
SHA-256 of the verifier and never contains a plus, a slash, or an equals
sign.  The source replaces the base64 plus and the padding, but replaces a
BACKSLASH instead of the forward slash, so for this verifier the produced
challenge contains three slashes and differs from the base64url-no-pad
encoding of the same digest. -/
theorem C1_challenge_not_base64url :
    Auth.code_challenge c1Verifier =
      "8GHY5px/HHuv00B/uBwf/AJUc1SINjHUTfFu3Uopy6Q" ∧
    '/' ∈ (Auth.code_challenge c1Verifier).toList ∧
    Auth.code_challenge c1Verifier ≠
      String.mk (Auth.base64urlNoPad (Auth.sha256 (Auth.strBytes c1Verifier))) := by
  refine ⟨by decide, by decide, by decide⟩

/-- An authorize-step redirect URL whose query carries an OAuth error. -/
def c2Url : Auth.Url := { query_pairs := [("error", "access_denied")] }

/-- C2 counterexample: on a redirect whose query holds
`error=access_denied`, `do_authorization` fails with
`VerificationFailure "access_denied"`, not with the `AuthorizationFailure`
kind the claim names. -/
theorem C2_error_param_counterexample :
    Auth.do_authorization (some c2Url) "v" =
      .error (.VerificationFailure "access_denied") ∧
    (match Auth.do_authorization (some c2Url) "v" with
     | .error e => e.isAuthorizationFailure
     | .ok _ => true) = false :=
  ⟨rfl, rfl⟩

/-- C2 amended: whenever the query of the redirect URL contains an `error`
parameter, the authorization step fails with `VerificationFailure`
carrying the value of that parameter (the source reuses the
`VerificationFailure` variant here; `AuthorizationFailure` is reserved for
a missing redirect or a missing code). -/
theorem C2_error_param_fails (pairs : List (String × String))
    (v code_verifier : String)
    (h : Auth.hashMapGet pairs "error" = some v) :
    Auth.do_authorization (some { query_pairs := pairs }) code_verifier =
      .error (.VerificationFailure v) := by
  simp [Auth.do_authorization, h]

/-- C2 witness: the amended theorem at a concrete redirect. -/
theorem C2_error_param_fails_witness :
    Auth.do_authorization (some { query_pairs := [("error", "x")] }) "cv" =
      .error (.VerificationFailure "x") :=
  C2_error_param_fails [("error", "x")] "x" "cv" (by decide)

/-- A token-endpoint body carrying the fields of both decode shapes. -/
def c3Both : Json :=
  .obj [("error", .str "e"), ("access_token", .str "a"),
        ("id_token", .str "b"), ("expires_in", .num 60)]

/-- C3 counterexample: a body holding the fields of both shapes satisfies
both (the derived serde decoders ignore unknown fields), refuting the
mutual-exclusivity part of the claim; and the untagged decode yields the ERROR
variant on it, while the success-shape-first order the claim describes
would yield the success variant. -/
theorem C3_both_shapes_counterexample :
    (Auth.decodeRawToken c3Both).isSome = true ∧
    (Auth.decodeErrorResponse c3Both).isSome = true ∧
    Auth.decodeRawTokenResponse c3Both = some (.Error ⟨"e"⟩) ∧
    Auth.decodeTokenResponseSpec c3Both = some (.Ok ⟨"a", "b", 60⟩) :=
  ⟨rfl, rfl, rfl, rfl⟩

/-- C3 amended: the untagged decode tries the ERROR shape first (the
variant declared first) and falls back to the success shape only when the
error shape does not match; an exact success-shape body decodes to a
success token, an error body decodes to the error variant and then to
`FailedToken invalid_grant`, and a success raw token maps to a `Token`. -/
theorem C3_untagged_decode (j : Json)
    (h : Auth.decodeErrorResponse j = none) :
    Auth.decodeRawTokenResponse j = (Auth.decodeRawToken j).map .Ok ∧
    Auth.decodeRawTokenResponse
        (.obj [("access_token", .str "a"), ("id_token", .str "b"),
               ("expires_in", .num 60)]) = some (.Ok ⟨"a", "b", 60⟩) ∧
    Auth.decodeRawTokenResponse (.obj [("error", .str "invalid_grant")]) =
      some (.Error ⟨"invalid_grant"⟩) ∧
    Auth.Token.tryFrom (.Error ⟨"invalid_grant"⟩) 0 =
      some (.error (.FailedToken "invalid_grant")) ∧
    Auth.Token.tryFrom (.Ok ⟨"a", "b", 60⟩) 0 = some (.ok ⟨"a", "b", 45⟩) := by
  refine ⟨?_, rfl, rfl, rfl, rfl⟩
  simp [Auth.decodeRawTokenResponse, h]

/-- C3 witness: the amended theorem at a success-shape body. -/
theorem C3_untagged_decode_witness :
    Auth.decodeRawTokenResponse
        (.obj [("access_token", .str "a"), ("id_token", .str "b"),
               ("expires_in", .num 60)]) = some (.Ok ⟨"a", "b", 60⟩) :=
  (C3_untagged_decode
      (.obj [("access_token", .str "a"), ("id_token", .str "b"),
             ("expires_in", .num 60)]) rfl).2.1

/-- A cached token that is already stale at time 1. -/
def c4Stale : Lib.Token := { access := "a", refresh := "r", expires := 0 }

/-- A world where the refresh POST gets a 2xx response with an undecodable
body, while the password grant would succeed. -/
def c4World : Lib.World :=
  { refreshResp := .response 200 (.obj []),
    newTokenResp := .response 200 (.obj [("access_token", .str "na"),
      ("refresh_token", .str "nr"), ("expires_in", .num 100)]) }

/-- C4 counterexample: with a stale cached token, a refresh response of
status 200 whose body fails to decode is surfaced to the caller as a JSON
error — no fallback mint is attempted (the request trace holds only the
refresh POST) even though the full re-login would have succeeded. -/
theorem C4_decode_failure_counterexample :
    Lib.refresh_token c4Stale c4World 1 =
      (some (.error .JSONError), [.refresh]) ∧
    Lib.new_token c4World 1 = some (.ok ⟨"na", "nr", 86⟩) :=
  ⟨rfl, rfl⟩

/-- C4 amended: the fallback to a full re-login happens exactly when the
refresh POST returns a non-2xx status; in that case the refresh failure is
discarded and the result — including any failure — is that of the full
re-login.  A decode failure of a 2xx refresh response is surfaced as a
JSON error instead of falling back (and a transport error propagates). -/
theorem C4_refresh_fallback (t : Lib.Token) (w : Lib.World) (now : Int)
    (status : Nat) (body : Json)
    (hstale : t.need_refresh now = true)
    (hresp : w.refreshResp = .response status body)
    (hfail : ¬(200 ≤ status ∧ status < 300)) :
    Lib.refresh_token t w now = (Lib.new_token w now, [.refresh, .mint]) := by
  simp [Lib.refresh_token, hstale, hresp, hfail]

/-- A world where the refresh POST gets HTTP 400 and the password grant
succeeds, the refresh-fallback scenario of the spec. -/
def c4World400 : Lib.World :=
  { refreshResp := .response 400 .null,
    newTokenResp := .response 200 (.obj [("access_token", .str "na"),
      ("refresh_token", .str "nr"), ("expires_in", .num 100)]) }

/-- C4 witness: the amended theorem on the HTTP-400 refresh scenario; the
result is the successful full re-login, the 400 never surfacing. -/
theorem C4_refresh_fallback_witness :
    Lib.refresh_token c4Stale c4World400 1 =
      (Lib.new_token c4World400 1, [.refresh, .mint]) :=
  C4_refresh_fallback c4Stale c4World400 1 400 .null (by decide) rfl (by decide)

/-- C5 counterexample: for a raw token with `expires_in = 0` the program
aborts — a debug build at the u64 subtraction, a release build at the
`Instant` addition of the wrapped `2 ^ 64 - 15` seconds — so no token is
constructed at all, and in particular none with the claimed expiry
`now + (expires_in - 15)`. -/
theorem C5_underflow_counterexample :
    Lib.Token.fromRaw ⟨"a", "r", 0⟩ 0 = none ∧
    Lib.Token.fromRaw ⟨"a", "r", 0⟩ 0 ≠ some ⟨"a", "r", 0 + (0 - 15)⟩ :=
  ⟨rfl, by decide⟩

/-- C5 amended: whenever the TTL arithmetic completes without aborting —
`expires_in ≥ 15` and an `Instant`-representable sum for the u64 field of
lib.rs; a `Duration`-representable `expires_in - 15` and a
datetime-representable sum for the i64 field of auth.rs — the constructed
expiry equals `now + expires_in - 15`; in particular `expires_in = 100`
yields a token expiring 85 seconds from now.  Outside those ranges the
program aborts and constructs no token, as the counterexample shows at
`expires_in = 0`. -/
theorem C5_token_expiry (raw : Lib.RawToken) (rawA : Auth.RawToken)
    (now : Int)
    (h1 : 15 ≤ raw.expires_in) (h2 : raw.expires_in < 2 ^ 64)
    (h3 : now + ((raw.expires_in : Int) - 15) < 2 ^ 63)
    (h4 : -Auth.durationSecsMax ≤ rawA.expires_in - 15)
    (h5 : rawA.expires_in - 15 ≤ Auth.durationSecsMax)
    (h6 : Auth.dateTimeMinSecs ≤ now + (rawA.expires_in - 15))
    (h7 : now + (rawA.expires_in - 15) ≤ Auth.dateTimeMaxSecs) :
    Lib.Token.fromRaw raw now =
      some ⟨raw.access_token, raw.refresh_token, now + raw.expires_in - 15⟩ ∧
    Auth.Token.tryFrom (.Ok rawA) now =
      some (.ok ⟨rawA.access_token, rawA.id_token,
                 now + rawA.expires_in - 15⟩) ∧
    Lib.Token.fromRaw ⟨"a", "r", 100⟩ 0 = some ⟨"a", "r", 85⟩ := by
  refine ⟨?_, ?_, rfl⟩
  · have hlt : ¬ raw.expires_in < 15 := by omega
    unfold Lib.Token.fromRaw
    rw [if_neg hlt, if_pos h3]
    have he : now + ((raw.expires_in : Int) - 15) =
        now + raw.expires_in - 15 := by omega
    rw [he]
  · simp only [Auth.Token.tryFrom]
    rw [if_pos ⟨h4, h5, h6, h7⟩]
    have he : now + (rawA.expires_in - 15) = now + rawA.expires_in - 15 := by
      omega
    rw [he]

/-- C5 witness: the amended theorem at `expires_in = 100`, `now = 0`. -/
theorem C5_token_expiry_witness :
    Lib.Token.fromRaw ⟨"a", "r", 100⟩ 0 = some ⟨"a", "r", 0 + 100 - 15⟩ ∧
    Auth.Token.tryFrom (.Ok ⟨"aa", "ii", 100⟩) 0 =
      some (.ok ⟨"aa", "ii", 0 + 100 - 15⟩) :=
  ⟨(C5_token_expiry ⟨"a", "r", 100⟩ ⟨"aa", "ii", 100⟩ 0 (by norm_num)
      (by norm_num) (by norm_num) (by decide) (by decide) (by decide)
      (by decide)).1,
   (C5_token_expiry ⟨"a", "r", 100⟩ ⟨"aa", "ii", 100⟩ 0 (by norm_num)
      (by norm_num) (by norm_num) (by decide) (by decide) (by decide)
      (by decide)).2.1⟩

/-- C6: the login step is blocked exactly when the first
`botdetected` query pair has the precise value true — `bool::from_str`
accepts only that spelling, and a parse failure defaults to false — and a
missing or unparseable `Location` header always succeeds.  The result is
either `Blocked` or success, never another error kind. -/
theorem C6_botdetected_blocked (pairs : List (String × String)) :
    (Auth.do_login (some { query_pairs := pairs }) =
      if (pairs.find? (fun p => p.1 = "botdetected")).map Prod.snd =
          some "true"
      then .error .Blocked else .ok ()) ∧
    Auth.do_login none = .ok () := by
  refine ⟨?_, rfl⟩
  unfold Auth.do_login
  cases hf : pairs.find? (fun p => p.1 = "botdetected") with
  | none => simp [hf]
  | some p =>
    by_cases ht : p.2 = "true"
    · simp [hf, Auth.parseBool, ht]
    · by_cases hf2 : p.2 = "false" <;> simp [hf, Auth.parseBool, ht, hf2]

/-- A login page holding a verification token but no static script path. -/
def c7TokOnly : String :=
  "<input name=\"__RequestVerificationToken\" type=\"hidden\" value=\"T1\" />"

/-- A login page holding both a verification token and a static path. -/
def c7Both : String :=
  c7TokOnly ++ "<script src=\"/static/abc123\"></script>"

/-- C7: the scraper checks the verification-token pattern first, so any
body it fails on yields `NoRequestValidationToken` (named
MissingVerificationToken) with no verification POST sent; a body matching
it but not the static-path pattern yields `NoStaticUrl` (named
MissingStaticPath), again with no POST; when both match, the captured
token and path are returned and the verification POST proceeds. -/
theorem C7_scraper (body : String) :
    (Auth.verify_login_posts body =
      match Auth.scanA body.toList with
      | none => (.error .NoRequestValidationToken, false)
      | some tok =>
        match Auth.scanB body.toList with
        | none => (.error .NoStaticUrl, false)
        | some path =>
          (.ok { url := String.mk path, token := String.mk tok }, true)) ∧
    Auth.verify_login_posts "<p>login</p>" =
      (.error .NoRequestValidationToken, false) ∧
    Auth.verify_login_posts c7TokOnly = (.error .NoStaticUrl, false) ∧
    Auth.verify_login_posts c7Both =
      (.ok { url := "/static/abc123", token := "T1" }, true) := by
  refine ⟨?_, rfl, rfl, rfl⟩
  unfold Auth.verify_login_posts Auth.get_request_verification_info
  cases hA : Auth.scanA body.toList with
  | none => simp [hA]
  | some tok => cases hB : Auth.scanB body.toList <;> simp [hA, hB]

/-- A network environment for exercising a fresh-token refresh pass. -/
def c8World : Lib.World :=
  { refreshResp := .response 500 .null, newTokenResp := .transportError }

/-- C8: `need_refresh` holds exactly when the expiry lies before the
current time, and a cached token that is fresh is returned unchanged by
`refresh_token`, with no token-endpoint request issued, whatever the
network would have answered. -/
theorem C8_fresh_token_returned (t : Lib.Token) (w : Lib.World) (now : Int)
    (hfresh : t.need_refresh now = false) :
    Lib.refresh_token t w now = (some (.ok t), []) ∧
    ∀ (t2 : Lib.Token) (now2 : Int),
      t2.need_refresh now2 = decide (t2.expires < now2) := by
  refine ⟨?_, fun t2 now2 => rfl⟩
  simp [Lib.refresh_token, hfresh]

/-- C8 witness: a token expiring at time 10 is fresh at time 5 and
survives a refresh pass untouched. -/
theorem C8_fresh_token_returned_witness :
    Lib.refresh_token ⟨"a", "r", 10⟩ c8World 5 =
      (some (.ok ⟨"a", "r", 10⟩), []) :=
  (C8_fresh_token_returned ⟨"a", "r", 10⟩ c8World 5 (by decide)).1

/-- The 15 characters `hex_random` can produce. -/
def hexAlphabet : List Char := "0123456789abcde".toList

/-- C9: `hex_random` returns exactly `length` characters, each drawn from
the 15-symbol alphabet 0..9, a..e — `gen_range(0, 15)` excludes 15, so the
16th hex digit f never occurs. -/
theorem C9_hex_random_alphabet (n : Nat) (rng : Nat → Nat) :
    (Auth.hex_random n rng).length = n ∧
    (∀ c ∈ (Auth.hex_random n rng).toList, c ∈ hexAlphabet) ∧
    'f' ∉ (Auth.hex_random n rng).toList := by
  have hmem : ∀ c ∈ (Auth.hex_random n rng).toList, c ∈ hexAlphabet := by
    intro c hc
    simp only [Auth.hex_random, String.toList, List.mem_map,
      List.mem_range] at hc
    obtain ⟨i, _, rfl⟩ := hc
    have h15 : rng i % 15 < 15 := Nat.mod_lt _ (by norm_num)
    exact (by decide : ∀ k < 15, Auth.from_digit k ∈ hexAlphabet) _ h15
  refine ⟨?_, hmem, ?_⟩
  · simp [Auth.hex_random]
  · intro hf
    exact absurd (hmem 'f' hf) (by decide)

/-- C9 witness: an eight-character draw from a concrete random stream. -/
theorem C9_hex_random_alphabet_witness :
    (Auth.hex_random 8 (fun i => i * 7)).length = 8 ∧
    'f' ∉ (Auth.hex_random 8 (fun i => i * 7)).toList :=
  ⟨(C9_hex_random_alphabet 8 (fun i => i * 7)).1,
   (C9_hex_random_alphabet 8 (fun i => i * 7)).2.2⟩

/-- A stale cached token for the cache-loss scenario. -/
def c10Stale : Lib.Token := { access := "a", refresh := "r", expires := 0 }

/-- A network environment in which both token-endpoint calls fail. -/
def c10World : Lib.World :=
  { refreshResp := .transportError, newTokenResp := .transportError }

/-- C10: `authenticate` takes the cached token out of the mutex slot
before computing its replacement, so when the refresh computation fails
the error returns with the slot still empty — the previously cached token
is lost — and a subsequent `authenticate` call, finding the slot empty,
performs a full token mint. -/
theorem C10_failed_refresh_empties_slot (t : Lib.Token) (w w2 : Lib.World)
    (now now2 : Int) (e : Error)
    (hfail : (Lib.authenticate (some t) w now).1 = some (.error e)) :
    (Lib.authenticate (some t) w now).2.1 = none ∧
    (Lib.authenticate none w2 now2).2.2 = [.mint] := by
  constructor
  · unfold Lib.authenticate at hfail ⊢
    cases hr : Lib.refresh_token t w now with
    | mk res reqs =>
      cases res with
      | none => simp [hr] at hfail
      | some ex => cases ex <;> simp [hr] at hfail ⊢
  · unfold Lib.authenticate
    cases hn : Lib.new_token w2 now2 with
    | none => simp [hn]
    | some ex => cases ex <;> simp [hn]

/-- C10 witness: a stale token whose refresh-and-fallback pass fails with
a transport error leaves the slot empty, and the next call from the empty
slot issues the full mint request. -/
theorem C10_failed_refresh_empties_slot_witness :
    (Lib.authenticate (some c10Stale) c10World 1).2.1 = none ∧
    (Lib.authenticate none c10World 0).2.2 = [.mint] :=
  C10_failed_refresh_empties_slot c10Stale c10World c10World 1 0
    .NetworkError rfl

end PostNL
